import Mathlib

/-!
Shallow embedding of `spotizerr-auth.py` (repository Xoconoch/spotizerr-auth).

The script is a linear interactive program: credential capture via an external
Spotify Connect responder, a server credential bootstrap
(`check_and_configure_api_creds`), and account registration (`main`).
We embed it as a state-and-exception monad over an explicit environment:
the environment fixes the answer each `input()` call would receive, the
result of each HTTP library call, the initial state of `credentials.json`,
and whether each filesystem operation succeeds.  Execution records a trace
of observable events (prompts read, HTTP requests issued, structured log
data, responder start/close, file deletion), and Python exceptions are an
explicit `Except` outcome so that catch/finally structure is modelled
faithfully.
-/

/-- Parsed JSON values, as produced by `response.json()` / `json.load`. -/
inductive JVal where
  | jnull
  | jbool (b : Bool)
  | jnum (n : Int)
  | jstr (s : String)
  | jarr (elems : List JVal)
  | jobj (fields : List (String × JVal))
deriving Repr

/-- Key lookup in a parsed JSON object (Python `dict.get` on parsed JSON). -/
def jlookup (fields : List (String × JVal)) (k : String) : Option JVal :=
  match fields with
  | [] => none
  | (k', v) :: rest => if k' = k then some v else jlookup rest k

/-- Python truthiness of an optional JSON value (`dict.get` result):
`None`, `False`, `0`, `""`, `[]`, `{}` are falsy, everything else truthy. -/
def truthy : Option JVal → Bool
  | none => false
  | some .jnull => false
  | some (.jbool b) => b
  | some (.jnum n) => !(n == 0)
  | some (.jstr s) => !(s == "")
  | some (.jarr elems) => !elems.isEmpty
  | some (.jobj fields) => !fields.isEmpty

/-- An HTTP response as the `requests` library delivers it: final status
code, the result of `.json()` (`none` when the body is not parseable JSON),
and the raw `.text` body. -/
structure HttpResponse where
  status : Nat
  jsonBody : Option JVal
  text : String
deriving Repr

/-- Outcome of a `requests.get/put/post` call: either a connection-level
failure (a `RequestException` carrying no response) or a delivered
response of any status. -/
inductive HttpResult where
  | connError
  | ok (r : HttpResponse)
deriving Repr

/-- Content of `credentials.json` on disk: the result of parsing it as JSON
(`none` when malformed) and its size in bytes. -/
structure FileData where
  parse : Option JVal
  size : Nat
deriving Repr

/-- Python exceptions that the script can raise or observe. -/
inductive PyExn where
  | systemExit (code : Nat)
  | keyboardInterrupt
  | requestException (resp : Option HttpResponse)
  | osError
deriving Repr

/-- Which `input()` call site a prompt event comes from. -/
inductive PromptSite where
  | baseUrl
  | configureNow
  | clientId
  | clientSecret
  | accountName
  | region
  | overwrite
  | cleanup
deriving DecidableEq, Repr

/-- Observable events of a run. -/
inductive Event where
  | promptRead (site : PromptSite) (answer : String)
  | httpGetReq (url : String)
  | httpPutReq (url : String) (body : JVal)
  | httpPostReq (url : String) (body : JVal)
  | logStatus (code : Nat)
  | logBodyJson (j : JVal)
  | logBodyText (t : String)
  | responderStart
  | responderClose
  | credFileUnlinked
deriving Repr

/-- What happens while the capture phase waits for the external library:
either the user interrupts the wait loop, or the library writes
`credentials.json` and the poll loop detects it.  The loop only exits on a
file of non-zero size, so the written file's size is `sizePred + 1`. -/
inductive CaptureOutcome where
  | interrupted
  | written (parse : Option JVal) (sizePred : Nat)
deriving Repr

/-- The environment of one run: every answer `input()` would read, the
result of each HTTP library call, the initial `credentials.json`, whether
each `unlink` succeeds, and the capture-phase outcome. -/
structure Env where
  baseUrlInput : String
  configureAnswer : String
  clientIdInput : String
  clientSecretInput : String
  accountNameInput : String
  regionInput : String
  overwriteAnswer : String
  cleanupAnswer : String
  httpGet : HttpResult
  httpPut : HttpResult
  httpPost : HttpResult
  initialCred : Option FileData
  preUnlinkOk : Bool
  captureOutcome : CaptureOutcome
  cleanupUnlinkOk : Bool
deriving Repr

/-- Mutable state of a run: the credential file on disk and the event
trace so far (in execution order). -/
structure St where
  credFile : Option FileData
  events : List Event
deriving Repr

/-- The execution monad: state plus Python exceptions. -/
def M (α : Type) : Type := St → Except PyExn α × St

def M.pure {α : Type} (a : α) : M α := fun s => (.ok a, s)

def M.bind {α β : Type} (x : M α) (f : α → M β) : M β := fun s =>
  match x s with
  | (.ok a, s') => f a s'
  | (.error e, s') => (.error e, s')

instance : Monad M where
  pure := M.pure
  bind := M.bind

/-- Record an event. -/
def emit (e : Event) : M Unit := fun s => (.ok (), { s with events := s.events ++ [e] })

/-- Raise a Python exception. -/
def raise {α : Type} (e : PyExn) : M α := fun s => (.error e, s)

/-- Read the credential-file state (`pathlib.Path.exists` etc.). -/
def getCred : M (Option FileData) := fun s => (.ok s.credFile, s)

/-- Set the credential-file state. -/
def setCred (c : Option FileData) : M Unit := fun s => (.ok (), { s with credFile := c })

/-- An `input()` call: records the prompt event and returns the
environment-supplied answer. -/
def readInput (site : PromptSite) (answer : String) : M String := fun s =>
  (.ok answer, { s with events := s.events ++ [.promptRead site answer] })

/-- Python `try/finally`: run the body, then always run the cleanup; an
exception from the cleanup replaces the body's outcome. -/
def pyFinally {α : Type} (body : M α) (fin : M Unit) : M α := fun s =>
  match body s with
  | (.ok a, s') =>
    match fin s' with
    | (.ok _, s'') => (.ok a, s'')
    | (.error e, s'') => (.error e, s'')
  | (.error e, s') =>
    match fin s' with
    | (.ok _, s'') => (.error e, s'')
    | (.error e', s'') => (.error e', s'')

/-- Python `except requests.exceptions.RequestException as e`. -/
def tryCatchReq {α : Type} (body : M α) (handler : Option HttpResponse → M α) : M α := fun s =>
  match body s with
  | (.ok a, s') => (.ok a, s')
  | (.error (.requestException r), s') => handler r s'
  | (.error e, s') => (.error e, s')

/-- Python `except KeyboardInterrupt`. -/
def tryCatchKeyboard {α : Type} (body : M α) (handler : M α) : M α := fun s =>
  match body s with
  | (.ok a, s') => (.ok a, s')
  | (.error .keyboardInterrupt, s') => handler s'
  | (.error e, s') => (.error e, s')

/-- A `requests.get` call: the request is issued, then either a
connection-level `RequestException` is raised or a response returned. -/
def doGet (url : String) (res : HttpResult) : M HttpResponse := do
  emit (.httpGetReq url)
  match res with
  | .connError => raise (.requestException none)
  | .ok r => pure r

/-- A `requests.put` call with a JSON payload. -/
def doPut (url : String) (body : JVal) (res : HttpResult) : M HttpResponse := do
  emit (.httpPutReq url body)
  match res with
  | .connError => raise (.requestException none)
  | .ok r => pure r

/-- A `requests.post` call with a JSON payload. -/
def doPost (url : String) (body : JVal) (res : HttpResult) : M HttpResponse := do
  emit (.httpPostReq url body)
  match res with
  | .connError => raise (.requestException none)
  | .ok r => pure r

/-- `response.raise_for_status()`: raises an `HTTPError` (a
`RequestException` carrying the response) exactly when the status code is
in the client/server error range 400-599; any other deliverable status
(1xx-3xx, but also 600-999, which `http.client` accepts and delivers) is
silent. -/
def raiseForStatus (r : HttpResponse) : M Unit :=
  if 400 ≤ r.status ∧ r.status < 600 then raise (.requestException (some r)) else pure ()

/-- `response.json()`: the parsed body, raising a `RequestException`
(requests' JSON decode error, which carries no response) when the body is
not valid JSON. -/
def respJson (r : HttpResponse) : M JVal :=
  match r.jsonBody with
  | some j => pure j
  | none => raise (.requestException none)

/-- Python `data.get(k)` where `data` came from `response.json()`: key
lookup when `data` is a JSON object.  On a non-object body the attribute
access raises (`AttributeError`); we reuse `PyExn.osError` as the stand-in
for an exception that no handler in this script catches. -/
def dictGet (j : JVal) (k : String) : M (Option JVal) :=
  match j with
  | .jobj fields => pure (jlookup fields k)
  | _ => raise .osError

/-- Python `str.lower()` on the ASCII letters, written over the character
list so that it computes by kernel reduction. -/
def pyLower (s : String) : String := ⟨s.data.map Char.toLower⟩

/-- Python `str.upper()` on the ASCII letters. -/
def pyUpper (s : String) : String := ⟨s.data.map Char.toUpper⟩

/-- Python `str.startswith(pre)`. -/
def startsWithStr (pre s : String) : Bool := pre.data.isPrefixOf s.data

/-- `base_url.rstrip('/')`: drop every trailing slash. -/
def rstripSlash (s : String) : String := ⟨(s.data.reverse.dropWhile (· == '/')).reverse⟩

/-- URL of the API-config resource (lines 70 and 104). -/
def apiConfigUrl (base_url : String) : String :=
  rstripSlash base_url ++ "/api/credentials/spotify_api_config"

/-- URL of the account-registration resource (line 173): the account name
is interpolated into the path verbatim, with no escaping or validation. -/
def registerUrl (base_url account_name : String) : String :=
  rstripSlash base_url ++ "/api/credentials/spotify/" ++ account_name

/-- Lines 126-132 of `main`: default the base URL and prefix a scheme. -/
def normalizeBaseUrl (s : String) : String :=
  let base := if s = "" then "http://localhost:7171" else s
  if startsWithStr "http://" base || startsWithStr "https://" base then base
  else "http://" ++ base

/-- `check_and_configure_api_creds` (lines 66-119): GET the config
resource; on both fields truthy succeed; otherwise offer to configure and
PUT the entered pair; all `RequestException`s are caught and logged. -/
def check_and_configure_api_creds (base_url : String) (env : Env) : M Bool :=
  let api_config_url := apiConfigUrl base_url
  tryCatchReq
    (do
      let response ← doGet api_config_url env.httpGet
      if 400 ≤ response.status then raiseForStatus response else pure ()
      let data ← respJson response
      let client_id ← dictGet data "client_id"
      let client_secret ← dictGet data "client_secret"
      if truthy client_id && truthy client_secret then
        pure true
      else do
        let configure_now := pyLower (← readInput .configureNow env.configureAnswer)
        if configure_now ≠ "y" then
          pure false
        else do
          let new_client_id ← readInput .clientId env.clientIdInput
          let new_client_secret ← readInput .clientSecret env.clientSecretInput
          if new_client_id = "" || new_client_secret = "" then
            pure false
          else do
            let payload := JVal.jobj
              [("client_id", .jstr new_client_id), ("client_secret", .jstr new_client_secret)]
            let put_response ← doPut api_config_url payload env.httpPut
            raiseForStatus put_response
            pure true)
    (fun eResp => do
      match eResp with
      | some resp => do
        emit (.logStatus resp.status)
        match resp.jsonBody with
        | some j => emit (.logBodyJson j)
        | none => emit (.logBodyText resp.text)
      | none => pure ()
      pure false)

/-- `get_spotify_session_and_wait_for_credentials` (lines 26-64): delete a
stale credential file (exiting with code 1 on `OSError`), start the
responder, wait until the library writes a non-empty file or the user
interrupts, and always close the responder via `finally`. -/
def get_spotify_session_and_wait_for_credentials (env : Env) : M Unit := do
  let cred ← getCred
  match cred with
  | some _ =>
    if env.preUnlinkOk then do
      setCred none
      emit .credFileUnlinked
    else
      raise (.systemExit 1)
  | none => pure ()
  emit .responderStart
  pyFinally
    (match env.captureOutcome with
     | .interrupted => raise .keyboardInterrupt
     | .written parse sizePred => setCred (some ⟨parse, sizePred + 1⟩))
    (emit .responderClose)

/-- The registration `try/except/finally` of `main` (lines 168-200): build
the payload, POST it, treat `RequestException` as fatal after logging, and
always run the delete-credentials prompt in the `finally` block. -/
def registerAccount (env : Env) (region : String) (credentials_data : JVal)
    (api_url : String) : M Unit :=
  let payload := JVal.jobj [("region", .jstr region), ("blob_content", credentials_data)]
  pyFinally
    (tryCatchReq
      (do
        let response ← doPost api_url payload env.httpPost
        raiseForStatus response
        pure ())
      (fun eResp => do
        match eResp with
        | some resp => do
          emit (.logStatus resp.status)
          emit (.logBodyText resp.text)
        | none => pure ()
        raise (.systemExit 1)))
    (do
      let cleanup := pyLower (← readInput .cleanup env.cleanupAnswer)
      if cleanup = "y" then do
        let cred3 ← getCred
        match cred3 with
        | some _ =>
          if env.cleanupUnlinkOk then do
            setCred none
            emit .credFileUnlinked
          else
            pure ()
        | none => pure ()
      else pure ())

/-- Lines 157-202 of `main`: re-check that a credential file exists, read
and parse it (exiting 1 when missing or malformed), run the registration
block, and exit 0 on success. -/
def finishRegistration (env : Env) (region base_url account_name : String) : M Unit := do
  let cred2 ← getCred
  match cred2 with
  | none => raise (.systemExit 1)
  | some f => do
    let credentials_data ←
      match f.parse with
      | some j => pure j
      | none => raise (.systemExit 1)
    registerAccount env region credentials_data (registerUrl base_url account_name)
    raise (.systemExit 0)

/-- Body of `main` inside the top-level `try` (lines 125-202). -/
def mainBody (env : Env) : M Unit := do
  let base_url := normalizeBaseUrl (← readInput .baseUrl env.baseUrlInput)
  let ok ← check_and_configure_api_creds base_url env
  if ok then pure () else raise (.systemExit 1)
  let account_name ← readInput .accountName env.accountNameInput
  if account_name = "" then raise (.systemExit 1) else pure ()
  let region := pyUpper (← readInput .region env.regionInput)
  if region = "" then raise (.systemExit 1) else pure ()
  let cred ← getCred
  match cred with
  | some _ => do
    let overwrite := pyLower (← readInput .overwrite env.overwriteAnswer)
    if overwrite = "y" then get_spotify_session_and_wait_for_credentials env
    else pure ()
  | none => get_spotify_session_and_wait_for_credentials env
  finishRegistration env region base_url account_name

/-- The whole process: run `main` with its top-level `KeyboardInterrupt`
handler (which exits 0) and turn the outcome into the process exit code
(`SystemExit n` exits with `n`, a normal return exits 0, any other
uncaught exception is a non-zero interpreter exit). -/
def runMain (env : Env) : Nat × St :=
  let s0 : St := { credFile := env.initialCred, events := [] }
  match tryCatchKeyboard (mainBody env) (raise (.systemExit 0)) s0 with
  | (.ok _, s) => (0, s)
  | (.error (.systemExit n), s) => (n, s)
  | (.error _, s) => (1, s)

/-! Trace observations used by the theorems below. -/

/-- Is this event a PUT request? -/
def Event.isPut : Event → Bool
  | .httpPutReq _ _ => true
  | _ => false

/-- Is this event a POST request? -/
def Event.isPost : Event → Bool
  | .httpPostReq _ _ => true
  | _ => false

/-- Is this event any `input()` prompt? -/
def Event.isPrompt : Event → Bool
  | .promptRead _ _ => true
  | _ => false

/-- Is this event the delete-credentials prompt of the registration
phase's cleanup block? -/
def Event.isCleanupPrompt : Event → Bool
  | .promptRead .cleanup _ => true
  | _ => false

/-- Is this event the responder being started? -/
def Event.isStart : Event → Bool
  | .responderStart => true
  | _ => false

/-- Is this event the responder being closed? -/
def Event.isClose : Event → Bool
  | .responderClose => true
  | _ => false

/-- Number of events in a trace satisfying a predicate. -/
def countP (p : Event → Bool) (evs : List Event) : Nat := (evs.filter p).length

/-- What `raise_for_status` makes of a PUT outcome: success exactly when a
response arrived whose status lies outside the 400-599 range that
`raise_for_status` raises for. -/
def putSucceeds : HttpResult → Bool
  | .connError => false
  | .ok r => if 400 ≤ r.status ∧ r.status < 600 then false else true

/-- The structured data the `RequestException` handlers log about a
response body: the parsed JSON when the body parses, the raw text
otherwise (lines 114-117). -/
def bodyLogEvent (r : HttpResponse) : Event :=
  match r.jsonBody with
  | some j => .logBodyJson j
  | none => .logBodyText r.text

/-- Flattened form of `check_and_configure_api_creds`: the same
computation written as one state-passing match tree.  `check_eq` below
proves it equal to the monadic embedding; all bootstrap claims are then
settled against this form. -/
def checkRun (base_url : String) (env : Env) (s : St) : Except PyExn Bool × St :=
  let url := apiConfigUrl base_url
  let s1 : St := { s with events := s.events ++ [.httpGetReq url] }
  match env.httpGet with
  | .connError => (.ok false, s1)
  | .ok r =>
    if 400 ≤ r.status ∧ r.status < 600 then
      (.ok false, { s1 with events := s1.events ++ [.logStatus r.status, bodyLogEvent r] })
    else
      match r.jsonBody with
      | none => (.ok false, s1)
      | some d =>
        match d with
        | .jobj fields =>
          if truthy (jlookup fields "client_id") && truthy (jlookup fields "client_secret") then
            (.ok true, s1)
          else
            let s2 : St := { s1 with events :=
              s1.events ++ [.promptRead .configureNow env.configureAnswer] }
            if pyLower env.configureAnswer ≠ "y" then
              (.ok false, s2)
            else
              let s3 : St := { s2 with events := s2.events ++
                [.promptRead .clientId env.clientIdInput,
                 .promptRead .clientSecret env.clientSecretInput] }
              if env.clientIdInput = "" || env.clientSecretInput = "" then
                (.ok false, s3)
              else
                let payload := JVal.jobj
                  [("client_id", .jstr env.clientIdInput),
                   ("client_secret", .jstr env.clientSecretInput)]
                let s4 : St := { s3 with events := s3.events ++ [.httpPutReq url payload] }
                match env.httpPut with
                | .connError => (.ok false, s4)
                | .ok pr =>
                  if 400 ≤ pr.status ∧ pr.status < 600 then
                    (.ok false, { s4 with events :=
                      s4.events ++ [.logStatus pr.status, bodyLogEvent pr] })
                  else (.ok true, s4)
        | _ => (.error .osError, s1)

/-- Flattened form of the capture phase after the stale-file handling:
responder start, wait outcome, responder close via `finally`. -/
def captureCore (env : Env) (s : St) : Except PyExn Unit × St :=
  let s1 : St := { s with events := s.events ++ [.responderStart] }
  match env.captureOutcome with
  | .interrupted =>
    (Except.error PyExn.keyboardInterrupt,
     { s1 with events := s1.events ++ [.responderClose] })
  | .written parse sizePred =>
    (Except.ok (), { credFile := some ⟨parse, sizePred + 1⟩,
                     events := s1.events ++ [.responderClose] })

/-- Flattened form of `get_spotify_session_and_wait_for_credentials`. -/
def captureRun (env : Env) (s : St) : Except PyExn Unit × St :=
  match s.credFile with
  | some _ =>
    if env.preUnlinkOk then
      captureCore env { credFile := none, events := s.events ++ [.credFileUnlinked] }
    else (.error (.systemExit 1), s)
  | none => captureCore env s

/-- Flattened form of the registration `try/except/finally` (lines
178-200), given the already-computed region, blob and URL. -/
def regRun (env : Env) (region : String) (j : JVal) (url : String) (s : St) :
    Except PyExn Unit × St :=
  let payload := JVal.jobj [("region", .jstr region), ("blob_content", j)]
  let s1 : St := { s with events := s.events ++ [.httpPostReq url payload] }
  let postOutcome : Except PyExn Unit × St :=
    match env.httpPost with
    | .connError => (.error (.systemExit 1), s1)
    | .ok r =>
      if 400 ≤ r.status ∧ r.status < 600 then
        (.error (.systemExit 1),
         { s1 with events := s1.events ++ [.logStatus r.status, .logBodyText r.text] })
      else (.ok (), s1)
  let doCleanup (t : St) : St :=
    let t1 : St := { t with events := t.events ++ [.promptRead .cleanup env.cleanupAnswer] }
    if pyLower env.cleanupAnswer = "y" then
      match t1.credFile with
      | some _ =>
        if env.cleanupUnlinkOk then
          { credFile := none, events := t1.events ++ [.credFileUnlinked] }
        else t1
      | none => t1
    else t1
  match postOutcome with
  | (.ok a, t) => (Except.ok a, doCleanup t)
  | (.error e, t) => (Except.error e, doCleanup t)

/-- Flattened form of `finishRegistration`. -/
def finishRun (env : Env) (region base_url account_name : String) (s : St) :
    Except PyExn Unit × St :=
  match s.credFile with
  | none => (.error (.systemExit 1), s)
  | some f =>
    match f.parse with
    | none => (.error (.systemExit 1), s)
    | some j =>
      match regRun env region j (registerUrl base_url account_name) s with
      | (.ok _, s7) => (.error (.systemExit 0), s7)
      | (.error e, s7) => (.error e, s7)

/-- Flattened form of `mainBody`. -/
def mainBodyRun (env : Env) (s : St) : Except PyExn Unit × St :=
  let s1 : St := { s with events := s.events ++ [.promptRead .baseUrl env.baseUrlInput] }
  let base := normalizeBaseUrl env.baseUrlInput
  match checkRun base env s1 with
  | (.error e, s2) => (.error e, s2)
  | (.ok b, s2) =>
    if b then
      let s3 : St := { s2 with events := s2.events ++ [.promptRead .accountName env.accountNameInput] }
      if env.accountNameInput = "" then (.error (.systemExit 1), s3)
      else
        let s4 : St := { s3 with events := s3.events ++ [.promptRead .region env.regionInput] }
        let region := pyUpper env.regionInput
        if region = "" then (.error (.systemExit 1), s4)
        else
          match s4.credFile with
          | some _ =>
            let s5 : St := { s4 with events :=
              s4.events ++ [.promptRead .overwrite env.overwriteAnswer] }
            if pyLower env.overwriteAnswer = "y" then
              match captureRun env s5 with
              | (.ok _, s6) => finishRun env region base env.accountNameInput s6
              | (.error e, s6) => (.error e, s6)
            else finishRun env region base env.accountNameInput s5
          | none =>
            match captureRun env s4 with
            | (.ok _, s6) => finishRun env region base env.accountNameInput s6
            | (.error e, s6) => (.error e, s6)
    else (.error (.systemExit 1), s2)

/-- Process exit code and final state from the outcome of `mainBody`
under the top-level `KeyboardInterrupt` handler. -/
def exitOf (out : Except PyExn Unit × St) : Nat × St :=
  match out with
  | (.ok _, s) => (0, s)
  | (.error (.systemExit n), s) => (n, s)
  | (.error .keyboardInterrupt, s) => (0, s)
  | (.error _, s) => (1, s)

/-- A GET response reporting that the server has no API credentials
configured (an empty JSON object). -/
def respNoCreds : HttpResponse := ⟨200, some (.jobj []), "{}"⟩

/-- A GET response reporting both API credentials present and truthy. -/
def respConfigured : HttpResponse :=
  ⟨200, some (.jobj [("client_id", .jstr "abc"), ("client_secret", .jstr "xyz")]), "cfg"⟩

/-- A concrete fully-successful interactive run: default base URL, the
server lacks API credentials and the user configures them, a valid
pre-existing `credentials.json` is reused (overwrite declined), the POST
succeeds, and the credential file is deleted at the end. -/
def envBase : Env where
  baseUrlInput := ""
  configureAnswer := "y"
  clientIdInput := "id"
  clientSecretInput := "sec"
  accountNameInput := "alice"
  regionInput := "us"
  overwriteAnswer := "n"
  cleanupAnswer := "y"
  httpGet := .ok respNoCreds
  httpPut := .ok ⟨201, some (.jobj []), "ok"⟩
  httpPost := .ok ⟨200, none, "registered"⟩
  initialCred := some ⟨some (.jstr "blob"), 10⟩
  preUnlinkOk := true
  captureOutcome := .written (some .jnull) 4
  cleanupUnlinkOk := true

/-! Unfolding lemmas for the monad operations. -/

theorem M.bind_apply {α β : Type} (x : M α) (f : α → M β) (s : St) :
    (x >>= f) s =
      match x s with
      | (.ok a, s') => f a s'
      | (.error e, s') => (.error e, s') := rfl

theorem M.pure_apply {α : Type} (a : α) (s : St) :
    (Pure.pure (f := M) a) s = (.ok a, s) := rfl

/-! Equivalence of the monadic embedding with the flattened run functions.
Every claim below is settled against the flattened forms through these. -/

/-- A guard `if A then (if A and B then x else y) else y` collapses to the
inner conditional: lines 75-76 guard `raise_for_status` by `status >= 400`,
but the raise itself happens only for 400-599. -/
theorem ite_guard_collapse {α : Type} {A B : Prop} [Decidable A] [Decidable (A ∧ B)]
    (x y : α) : (if A then (if A ∧ B then x else y) else y) = (if A ∧ B then x else y) := by
  by_cases hA : A
  · simp [hA]
  · have hAB : ¬(A ∧ B) := fun h => hA h.1
    simp [hA, hAB]

theorem check_eq (base : String) (env : Env) (s : St) :
    check_and_configure_api_creds base env s = checkRun base env s := by
  unfold check_and_configure_api_creds checkRun tryCatchReq doGet doPut respJson dictGet raiseForStatus
  simp only [ite_guard_collapse]
  cases env.httpGet with
  | connError =>
    simp [M.bind_apply, M.pure_apply, emit, raise, readInput]
  | ok r =>
    by_cases hst : 400 ≤ r.status ∧ r.status < 600
    · cases hj : r.jsonBody <;>
        simp [M.bind_apply, M.pure_apply, emit, raise, readInput, hst, hj, bodyLogEvent]
    · cases hj : r.jsonBody with
      | none => simp [M.bind_apply, M.pure_apply, emit, raise, readInput, hst, hj]
      | some d =>
        cases d with
        | jobj fields =>
          by_cases htr : truthy (jlookup fields "client_id") = true ∧
              truthy (jlookup fields "client_secret") = true
          · simp [M.bind_apply, M.pure_apply, emit, raise, readInput, hst, hj, htr]
          · by_cases hy : pyLower env.configureAnswer = "y"
            · by_cases hid : env.clientIdInput = ""
              · simp [M.bind_apply, M.pure_apply, emit, raise, readInput, hst, hj, htr, hy, hid]
              · by_cases hsc : env.clientSecretInput = ""
                · simp [M.bind_apply, M.pure_apply, emit, raise, readInput, hst, hj, htr, hy,
                    hid, hsc]
                · cases hp : env.httpPut with
                  | connError =>
                    simp [M.bind_apply, M.pure_apply, emit, raise, readInput, hst, hj, htr, hy,
                      hid, hsc, hp]
                  | ok pr =>
                    by_cases hps : 400 ≤ pr.status ∧ pr.status < 600
                    · cases hjp : pr.jsonBody <;>
                        simp [M.bind_apply, M.pure_apply, emit, raise, readInput, hst, hj, htr,
                          hy, hid, hsc, hp, hps, hjp, bodyLogEvent]
                    · simp [M.bind_apply, M.pure_apply, emit, raise, readInput, hst, hj, htr,
                        hy, hid, hsc, hp, hps]
            · simp [M.bind_apply, M.pure_apply, emit, raise, readInput, hst, hj, htr, hy]
        | jnull => simp [M.bind_apply, M.pure_apply, emit, raise, readInput, hst, hj]
        | jbool b => simp [M.bind_apply, M.pure_apply, emit, raise, readInput, hst, hj]
        | jnum n => simp [M.bind_apply, M.pure_apply, emit, raise, readInput, hst, hj]
        | jstr t => simp [M.bind_apply, M.pure_apply, emit, raise, readInput, hst, hj]
        | jarr elems => simp [M.bind_apply, M.pure_apply, emit, raise, readInput, hst, hj]

theorem capture_eq (env : Env) (s : St) :
    get_spotify_session_and_wait_for_credentials env s = captureRun env s := by
  unfold get_spotify_session_and_wait_for_credentials captureRun captureCore pyFinally
  cases hc : s.credFile with
  | none =>
    cases ho : env.captureOutcome <;>
      simp [M.bind_apply, M.pure_apply, emit, raise, getCred, setCred, hc, ho]
  | some f =>
    by_cases hu : env.preUnlinkOk = true
    · cases ho : env.captureOutcome <;>
        simp [M.bind_apply, M.pure_apply, emit, raise, getCred, setCred, hc, ho, hu]
    · simp [M.bind_apply, M.pure_apply, emit, raise, getCred, setCred, hc, hu]

theorem reg_eq (env : Env) (region : String) (j : JVal) (url : String) (s : St) :
    registerAccount env region j url s = regRun env region j url s := by
  unfold registerAccount regRun pyFinally tryCatchReq doPost raiseForStatus
  cases hp : env.httpPost with
  | connError =>
    by_cases hcl : pyLower env.cleanupAnswer = "y"
    · cases hcf : s.credFile with
      | none =>
        simp [M.bind_apply, M.pure_apply, emit, raise, readInput, getCred, setCred, hp, hcl, hcf]
      | some f =>
        by_cases hcu : env.cleanupUnlinkOk = true <;>
          simp [M.bind_apply, M.pure_apply, emit, raise, readInput, getCred, setCred, hp, hcl,
            hcf, hcu]
    · simp [M.bind_apply, M.pure_apply, emit, raise, readInput, getCred, setCred, hp, hcl]
  | ok r =>
    by_cases hps : 400 ≤ r.status ∧ r.status < 600 <;>
    · by_cases hcl : pyLower env.cleanupAnswer = "y"
      · cases hcf : s.credFile with
        | none =>
          simp [M.bind_apply, M.pure_apply, emit, raise, readInput, getCred, setCred, hp, hps,
            hcl, hcf]
        | some f =>
          by_cases hcu : env.cleanupUnlinkOk = true <;>
            simp [M.bind_apply, M.pure_apply, emit, raise, readInput, getCred, setCred, hp, hps,
              hcl, hcf, hcu]
      · simp [M.bind_apply, M.pure_apply, emit, raise, readInput, getCred, setCred, hp, hps, hcl]

theorem finish_eq (env : Env) (region base_url account_name : String) (s : St) :
    finishRegistration env region base_url account_name s =
      finishRun env region base_url account_name s := by
  unfold finishRegistration finishRun
  cases hcf : s.credFile with
  | none => simp [M.bind_apply, M.pure_apply, getCred, raise, hcf]
  | some f =>
    cases hp : f.parse with
    | none => simp [M.bind_apply, M.pure_apply, getCred, raise, hcf, hp]
    | some j =>
      simp only [M.bind_apply, M.pure_apply, getCred, raise, hcf, hp, reg_eq]
      rcases hr : regRun env region j (registerUrl base_url account_name) s with ⟨res, s7⟩
      cases res <;> simp [raise]

theorem mainBody_eq (env : Env) (s : St) :
    mainBody env s = mainBodyRun env s := by
  unfold mainBody mainBodyRun
  simp only [M.bind_apply, M.pure_apply, readInput, getCred, raise, check_eq, capture_eq,
    finish_eq]
  rcases hc : checkRun (normalizeBaseUrl env.baseUrlInput) env
      { credFile := s.credFile,
        events := s.events ++ [.promptRead .baseUrl env.baseUrlInput] } with ⟨res, s2⟩
  cases res with
  | error e => simp
  | ok b =>
    cases b with
    | false => simp [M.bind_apply, M.pure_apply, readInput, getCred, raise]
    | true =>
      by_cases hname : env.accountNameInput = ""
      · simp [M.bind_apply, M.pure_apply, readInput, getCred, raise, hname]
      · by_cases hreg : pyUpper env.regionInput = ""
        · simp [M.bind_apply, M.pure_apply, readInput, getCred, raise, hname, hreg]
        · cases hcred : s2.credFile with
          | none =>
            simp [M.bind_apply, M.pure_apply, readInput, getCred, raise, hname, hreg,
              hcred, capture_eq, finish_eq]
            rcases hcap : captureRun env
                { credFile := none,
                  events := s2.events ++
                    [Event.promptRead PromptSite.accountName env.accountNameInput,
                     Event.promptRead PromptSite.region env.regionInput] } with ⟨cres, s6⟩
            cases cres <;> simp
          | some f =>
            by_cases hov : pyLower env.overwriteAnswer = "y"
            · simp [M.bind_apply, M.pure_apply, readInput, getCred, raise, hname, hreg,
                hcred, hov, capture_eq, finish_eq]
              rcases hcap : captureRun env
                  { credFile := some f,
                    events := s2.events ++
                      [Event.promptRead PromptSite.accountName env.accountNameInput,
                       Event.promptRead PromptSite.region env.regionInput,
                       Event.promptRead PromptSite.overwrite env.overwriteAnswer] } with ⟨cres, s6⟩
              cases cres <;> simp
            · simp [M.bind_apply, M.pure_apply, readInput, getCred, raise, hname, hreg, hcred,
                hov, capture_eq, finish_eq]

theorem runMain_eq (env : Env) :
    runMain env = exitOf (mainBodyRun env { credFile := env.initialCred, events := [] }) := by
  unfold runMain exitOf tryCatchKeyboard
  simp only [mainBody_eq]
  rcases h : mainBodyRun env { credFile := env.initialCred, events := [] } with ⟨res, s⟩
  cases res with
  | ok a => rfl
  | error e => cases e <;> simp [raise]
/-- C2: when the GET of the configuration resource succeeds (status below
400) and its JSON body has both `client_id` and `client_secret` present and
truthy, the bootstrap returns success immediately, issues no PUT, and reads
no user input. -/
theorem C2_configured_skips_put_and_input
    (base : String) (env : Env) (cred : Option FileData)
    (gr : HttpResponse) (fields : List (String × JVal))
    (hGet : env.httpGet = .ok gr)
    (hst : gr.status < 400)
    (hjson : gr.jsonBody = some (.jobj fields))
    (hcid : truthy (jlookup fields "client_id") = true)
    (hsec : truthy (jlookup fields "client_secret") = true) :
    (check_and_configure_api_creds base env ⟨cred, []⟩).1 = .ok true ∧
    countP Event.isPut (check_and_configure_api_creds base env ⟨cred, []⟩).2.events = 0 ∧
    countP Event.isPrompt (check_and_configure_api_creds base env ⟨cred, []⟩).2.events = 0 := by
  simp [check_eq, checkRun, hGet, hjson, hcid, hsec, Nat.not_le.mpr hst, countP,
    Event.isPut, Event.isPrompt]

/-- Witness for C2 at a concrete configured server. -/
theorem C2_witness :
    ({ envBase with httpGet := .ok respConfigured } : Env).httpGet = .ok respConfigured ∧
    respConfigured.status < 400 ∧
    (check_and_configure_api_creds "http://localhost:7171"
        { envBase with httpGet := .ok respConfigured } ⟨none, []⟩).1 = .ok true ∧
    countP Event.isPut (check_and_configure_api_creds "http://localhost:7171"
        { envBase with httpGet := .ok respConfigured } ⟨none, []⟩).2.events = 0 ∧
    countP Event.isPrompt (check_and_configure_api_creds "http://localhost:7171"
        { envBase with httpGet := .ok respConfigured } ⟨none, []⟩).2.events = 0 := by
  refine ⟨rfl, by decide, ?_⟩
  exact C2_configured_skips_put_and_input "http://localhost:7171"
    { envBase with httpGet := .ok respConfigured } none respConfigured
    [("client_id", .jstr "abc"), ("client_secret", .jstr "xyz")]
    rfl (by decide) rfl (by decide) (by decide)

/-- C1 counterexample: with the PUT answered by a 304 response, a status
that is not 2xx, the bootstrap nevertheless returns success, because
`raise_for_status` raises only for statuses 400-599; so "success only on
2xx" is false on the code. -/
theorem C1_success_on_status_304 :
    ({ envBase with httpPut := .ok ⟨304, none, "nm"⟩ } : Env).httpPut = .ok ⟨304, none, "nm"⟩ ∧
    ¬(200 ≤ 304 ∧ 304 < 300) ∧
    (check_and_configure_api_creds "http://localhost:7171"
        { envBase with httpPut := .ok ⟨304, none, "nm"⟩ } ⟨none, []⟩).1 = .ok true :=
  ⟨rfl, by decide, rfl⟩

/-- C1 (amended): in every run where the GET succeeds with a JSON object
not reporting both credentials truthy, the user answers `y`, and both
entered values are non-empty, exactly one PUT is issued, to the config
URL, with exactly the entered pair as its JSON body; the bootstrap
succeeds exactly when the PUT yields a response whose status lies outside
the 400-599 range that `raise_for_status` raises for, and fails on any
status in 400-599 or on connection failure. -/
theorem C1_one_put_exact_payload
    (base : String) (env : Env) (cred : Option FileData)
    (gr : HttpResponse) (fields : List (String × JVal))
    (hGet : env.httpGet = .ok gr)
    (hst : gr.status < 400)
    (hjson : gr.jsonBody = some (.jobj fields))
    (hmiss : ¬(truthy (jlookup fields "client_id") = true ∧
               truthy (jlookup fields "client_secret") = true))
    (hyes : pyLower env.configureAnswer = "y")
    (hcid : env.clientIdInput ≠ "")
    (hsec : env.clientSecretInput ≠ "") :
    countP Event.isPut (check_and_configure_api_creds base env ⟨cred, []⟩).2.events = 1 ∧
    Event.httpPutReq (apiConfigUrl base)
        (JVal.jobj [("client_id", .jstr env.clientIdInput),
                    ("client_secret", .jstr env.clientSecretInput)]) ∈
      (check_and_configure_api_creds base env ⟨cred, []⟩).2.events ∧
    (check_and_configure_api_creds base env ⟨cred, []⟩).1 = .ok (putSucceeds env.httpPut) := by
  cases hp : env.httpPut with
  | connError =>
    simp [check_eq, checkRun, hGet, hjson, hmiss, Nat.not_le.mpr hst, hyes, hcid, hsec, hp,
      countP, Event.isPut, putSucceeds]
  | ok pr =>
    by_cases hps : 400 ≤ pr.status ∧ pr.status < 600
    · cases hjp : pr.jsonBody <;>
        simp [check_eq, checkRun, hGet, hjson, hmiss, Nat.not_le.mpr hst, hyes, hcid, hsec, hp,
          hps, hjp, countP, Event.isPut, putSucceeds, bodyLogEvent]
    · simp [check_eq, checkRun, hGet, hjson, hmiss, Nat.not_le.mpr hst, hyes, hcid, hsec, hp,
        hps, countP, Event.isPut, putSucceeds]

/-- Witness for the amended C1 at a concrete unconfigured server. -/
theorem C1_witness :
    envBase.httpGet = .ok respNoCreds ∧ pyLower envBase.configureAnswer = "y" ∧
    envBase.clientIdInput ≠ "" ∧ envBase.clientSecretInput ≠ "" ∧
    (countP Event.isPut (check_and_configure_api_creds "http://localhost:7171"
        envBase ⟨none, []⟩).2.events = 1 ∧
     Event.httpPutReq (apiConfigUrl "http://localhost:7171")
         (JVal.jobj [("client_id", .jstr envBase.clientIdInput),
                     ("client_secret", .jstr envBase.clientSecretInput)]) ∈
       (check_and_configure_api_creds "http://localhost:7171" envBase ⟨none, []⟩).2.events ∧
     (check_and_configure_api_creds "http://localhost:7171" envBase ⟨none, []⟩).1 =
       .ok (putSucceeds envBase.httpPut)) := by
  refine ⟨rfl, by decide, by decide, by decide, ?_⟩
  exact C1_one_put_exact_payload "http://localhost:7171" envBase none respNoCreds []
    rfl (by decide) rfl (by decide) (by decide) (by decide) (by decide)

/-- C6 counterexample: a GET answered with the deliverable status 700 is
at least 400, yet `raise_for_status` (which raises only for 400-599) is
silent, so the bootstrap proceeds, parses the truthy-credentials body and
returns success with nothing logged: the trace is the GET request alone.
So "every status >= 400 is converted into a boolean failure and logged" is
false on the code. -/
theorem C6_status_700_not_failure :
    ({ envBase with httpGet := .ok ⟨700, some (.jobj
        [("client_id", .jstr "abc"), ("client_secret", .jstr "xyz")]), "x"⟩ } : Env).httpGet =
      .ok ⟨700, some (.jobj [("client_id", .jstr "abc"), ("client_secret", .jstr "xyz")]), "x"⟩ ∧
    400 ≤ (700 : Nat) ∧
    (check_and_configure_api_creds "http://localhost:7171"
        { envBase with httpGet := .ok ⟨700, some (.jobj
            [("client_id", .jstr "abc"), ("client_secret", .jstr "xyz")]), "x"⟩ }
        ⟨none, []⟩).1 = .ok true ∧
    (check_and_configure_api_creds "http://localhost:7171"
        { envBase with httpGet := .ok ⟨700, some (.jobj
            [("client_id", .jstr "abc"), ("client_secret", .jstr "xyz")]), "x"⟩ }
        ⟨none, []⟩).2.events = [.httpGetReq (apiConfigUrl "http://localhost:7171")] :=
  ⟨rfl, by decide, rfl, rfl⟩

/-- C6 (amended): every network/HTTP failure inside the bootstrap — GET
connection failure, GET status in 400-599, PUT connection failure, PUT
status in 400-599 (exactly the range `raise_for_status` raises for) — is
caught and converted into the boolean result `false`, and when a response
is available its status code and body (parsed JSON when parseable, raw
text otherwise) are logged; deliverable statuses outside that range are
not treated as failures. -/
theorem C6_network_failures_handled
    (base : String) (env : Env) (cred : Option FileData) :
    (env.httpGet = .connError →
      (check_and_configure_api_creds base env ⟨cred, []⟩).1 = .ok false) ∧
    (∀ gr : HttpResponse, env.httpGet = .ok gr → 400 ≤ gr.status → gr.status < 600 →
      (check_and_configure_api_creds base env ⟨cred, []⟩).1 = .ok false ∧
      Event.logStatus gr.status ∈ (check_and_configure_api_creds base env ⟨cred, []⟩).2.events ∧
      bodyLogEvent gr ∈ (check_and_configure_api_creds base env ⟨cred, []⟩).2.events) ∧
    (∀ gr : HttpResponse, ∀ fields : List (String × JVal),
      env.httpGet = .ok gr → gr.status < 400 → gr.jsonBody = some (.jobj fields) →
      ¬(truthy (jlookup fields "client_id") = true ∧
        truthy (jlookup fields "client_secret") = true) →
      pyLower env.configureAnswer = "y" →
      env.clientIdInput ≠ "" → env.clientSecretInput ≠ "" →
      (env.httpPut = .connError →
        (check_and_configure_api_creds base env ⟨cred, []⟩).1 = .ok false) ∧
      (∀ pr : HttpResponse, env.httpPut = .ok pr → 400 ≤ pr.status → pr.status < 600 →
        (check_and_configure_api_creds base env ⟨cred, []⟩).1 = .ok false ∧
        Event.logStatus pr.status ∈
          (check_and_configure_api_creds base env ⟨cred, []⟩).2.events ∧
        bodyLogEvent pr ∈ (check_and_configure_api_creds base env ⟨cred, []⟩).2.events)) := by
  refine ⟨?_, ?_, ?_⟩
  · intro h
    simp [check_eq, checkRun, h]
  · intro gr hGet hst1 hst2
    cases hjp : gr.jsonBody <;>
      simp [check_eq, checkRun, hGet, hst1, hst2, hjp, bodyLogEvent]
  · intro gr fields hGet hst hjson hmiss hyes hcid hsec
    constructor
    · intro hput
      simp [check_eq, checkRun, hGet, Nat.not_le.mpr hst, hjson, hmiss, hyes, hcid, hsec, hput]
    · intro pr hput hps1 hps2
      cases hjp : pr.jsonBody <;>
        simp [check_eq, checkRun, hGet, Nat.not_le.mpr hst, hjson, hmiss, hyes, hcid, hsec,
          hput, hps1, hps2, hjp, bodyLogEvent]

/-- Witness for the amended C6 at a concrete GET that returns status 500. -/
theorem C6_witness :
    ({ envBase with httpGet := .ok ⟨500, none, "err"⟩ } : Env).httpGet =
      .ok ⟨500, none, "err"⟩ ∧
    400 ≤ (500 : Nat) ∧ (500 : Nat) < 600 ∧
    ((check_and_configure_api_creds "http://localhost:7171"
        { envBase with httpGet := .ok ⟨500, none, "err"⟩ } ⟨none, []⟩).1 = .ok false ∧
     Event.logStatus (500 : Nat) ∈ (check_and_configure_api_creds "http://localhost:7171"
        { envBase with httpGet := .ok ⟨500, none, "err"⟩ } ⟨none, []⟩).2.events ∧
     bodyLogEvent ⟨500, none, "err"⟩ ∈ (check_and_configure_api_creds "http://localhost:7171"
        { envBase with httpGet := .ok ⟨500, none, "err"⟩ } ⟨none, []⟩).2.events) := by
  refine ⟨rfl, by decide, by decide, ?_⟩
  exact (C6_network_failures_handled "http://localhost:7171"
    { envBase with httpGet := .ok ⟨500, none, "err"⟩ } none).2.1 ⟨500, none, "err"⟩ rfl
    (by decide) (by decide)

/-- Counting events distributes over trace concatenation. -/
theorem countP_append (p : Event → Bool) (l1 l2 : List Event) :
    countP p (l1 ++ l2) = countP p l1 + countP p l2 := by
  simp [countP, List.filter_append]

/-- C9: the capture phase stops the responder on every exit path: whatever
the wait outcome (credential file detected, or wait loop interrupted by
the user) and whatever the initial file state, the emitted trace contains
exactly as many responder-close events as responder-start events. -/
theorem C9_responder_always_closed (env : Env) (cred : Option FileData) :
    countP Event.isClose
        (get_spotify_session_and_wait_for_credentials env ⟨cred, []⟩).2.events =
      countP Event.isStart
        (get_spotify_session_and_wait_for_credentials env ⟨cred, []⟩).2.events := by
  cases cred <;> cases ho : env.captureOutcome <;>
    by_cases hu : env.preUnlinkOk = true <;>
      simp [capture_eq, captureRun, captureCore, ho, hu, countP, Event.isStart, Event.isClose]

/-- Outcome shape of the bootstrap: it returns a boolean (or propagates
the uncaught attribute error on a non-object JSON body) and never issues a
POST request. -/
theorem checkRun_shape (base : String) (env : Env) (s : St) :
    ((checkRun base env s).1 = .ok true ∨ (checkRun base env s).1 = .ok false ∨
      (checkRun base env s).1 = .error .osError) ∧
    countP Event.isPost (checkRun base env s).2.events = countP Event.isPost s.events := by
  unfold checkRun
  cases hg : env.httpGet with
  | connError => simp [countP, Event.isPost]
  | ok r =>
    by_cases hst : 400 ≤ r.status ∧ r.status < 600
    · cases hj : r.jsonBody <;> simp [hst, hj, countP, Event.isPost, bodyLogEvent]
    · cases hj : r.jsonBody with
      | none => simp [hst, hj, countP, Event.isPost]
      | some d =>
        cases d with
        | jobj fields =>
          by_cases htr : truthy (jlookup fields "client_id") = true ∧
              truthy (jlookup fields "client_secret") = true
          · simp [hst, hj, htr, countP, Event.isPost]
          · by_cases hy : pyLower env.configureAnswer = "y"
            · by_cases hid : env.clientIdInput = ""
              · simp [hst, hj, htr, hy, hid, countP, Event.isPost]
              · by_cases hsc : env.clientSecretInput = ""
                · simp [hst, hj, htr, hy, hid, hsc, countP, Event.isPost]
                · cases hp : env.httpPut with
                  | connError => simp [hst, hj, htr, hy, hid, hsc, hp, countP, Event.isPost]
                  | ok pr =>
                    by_cases hps : 400 ≤ pr.status ∧ pr.status < 600
                    · cases hjp : pr.jsonBody <;>
                        simp [hst, hj, htr, hy, hid, hsc, hp, hps, hjp, countP, Event.isPost,
                          bodyLogEvent]
                    · simp [hst, hj, htr, hy, hid, hsc, hp, hps, countP, Event.isPost]
            · simp [hst, hj, htr, hy, countP, Event.isPost]
        | jnull => simp [hst, hj, countP, Event.isPost]
        | jbool b => simp [hst, hj, countP, Event.isPost]
        | jnum n => simp [hst, hj, countP, Event.isPost]
        | jstr t => simp [hst, hj, countP, Event.isPost]
        | jarr elems => simp [hst, hj, countP, Event.isPost]

/-- C7: whenever the entered account name or the entered region is empty,
the run exits with code 1 and no registration POST is ever issued. -/
theorem C7_empty_inputs_abort (env : Env)
    (h : env.accountNameInput = "" ∨ env.regionInput = "") :
    (runMain env).1 = 1 ∧ countP Event.isPost (runMain env).2.events = 0 := by
  rw [runMain_eq]
  obtain ⟨hres, hpost⟩ := checkRun_shape (normalizeBaseUrl env.baseUrlInput) env
    { credFile := env.initialCred,
      events := [Event.promptRead PromptSite.baseUrl env.baseUrlInput] }
  simp only [mainBodyRun, List.nil_append]
  rcases hc : checkRun (normalizeBaseUrl env.baseUrlInput) env
      { credFile := env.initialCred,
        events := [Event.promptRead PromptSite.baseUrl env.baseUrlInput] } with ⟨res, s2⟩
  rw [hc] at hres hpost
  have hpost0 := hpost
  simp [countP, Event.isPost] at hpost0
  cases res with
  | error e =>
    have he : e = .osError := by simpa using hres
    subst he
    simp [exitOf, countP, Event.isPost]
    try exact hpost0
  | ok b =>
    cases b with
    | false =>
      simp [exitOf, countP, Event.isPost]
      try exact hpost0
    | true =>
      by_cases hname : env.accountNameInput = ""
      · simp [exitOf, hname, countP, Event.isPost]
        try exact hpost0
      · rcases h with h1 | hreg
        · exact absurd h1 hname
        · simp [exitOf, hname, hreg, countP, Event.isPost,
            (show pyUpper "" = "" from rfl)]
          try exact hpost0

/-- Witness for C7 at a concrete run with an empty account name. -/
theorem C7_witness :
    ({ envBase with accountNameInput := "" } : Env).accountNameInput = "" ∧
    ((runMain { envBase with accountNameInput := "" }).1 = 1 ∧
     countP Event.isPost (runMain { envBase with accountNameInput := "" }).2.events = 0) :=
  ⟨rfl, C7_empty_inputs_abort { envBase with accountNameInput := "" } (Or.inl rfl)⟩

/-- C5: with an existing parseable credentials.json and the overwrite
prompt declined, the capture phase never runs (no responder start) and the
POST payload carries the existing file's parsed content verbatim as
blob_content. -/
theorem C5_existing_file_reused
    (env : Env) (gr : HttpResponse) (fields : List (String × JVal))
    (f : FileData) (j : JVal)
    (hGet : env.httpGet = .ok gr)
    (hst : gr.status < 400)
    (hjson : gr.jsonBody = some (.jobj fields))
    (hcid : truthy (jlookup fields "client_id") = true)
    (hsec : truthy (jlookup fields "client_secret") = true)
    (hname : env.accountNameInput ≠ "")
    (hreg : pyUpper env.regionInput ≠ "")
    (hcred : env.initialCred = some f)
    (hparse : f.parse = some j)
    (hov : pyLower env.overwriteAnswer ≠ "y") :
    countP Event.isStart (runMain env).2.events = 0 ∧
    Event.httpPostReq (registerUrl (normalizeBaseUrl env.baseUrlInput) env.accountNameInput)
        (JVal.jobj [("region", .jstr (pyUpper env.regionInput)), ("blob_content", j)]) ∈
      (runMain env).2.events := by
  rw [runMain_eq]
  simp only [mainBodyRun, List.nil_append]
  simp only [checkRun, hGet, Nat.not_le.mpr hst, hjson, hcid, hsec, hcred, hname, hreg, hov,
    and_self, if_true, if_false, ite_true, ite_false, eq_self_iff_true, not_true, not_false_iff]
  cases hp : env.httpPost with
  | connError =>
    by_cases hcl : pyLower env.cleanupAnswer = "y" <;>
      by_cases hcu : env.cleanupUnlinkOk = true <;>
        simp [exitOf, finishRun, regRun, hname, hreg, hov, hparse, hp, hcl, hcu,
          countP, Event.isStart]
  | ok pr =>
    by_cases hps : 400 ≤ pr.status ∧ pr.status < 600 <;>
      by_cases hcl : pyLower env.cleanupAnswer = "y" <;>
        by_cases hcu : env.cleanupUnlinkOk = true <;>
          simp [exitOf, finishRun, regRun, hname, hreg, hov, hparse, hp, hps, hcl, hcu,
            countP, Event.isStart]

/-- Witness for C5. -/
theorem C5_witness :
    countP Event.isStart (runMain { envBase with httpGet := .ok respConfigured }).2.events = 0 ∧
    Event.httpPostReq (registerUrl (normalizeBaseUrl "") "alice")
        (JVal.jobj [("region", .jstr (pyUpper "us")), ("blob_content", .jstr "blob")]) ∈
      (runMain { envBase with httpGet := .ok respConfigured }).2.events :=
  C5_existing_file_reused { envBase with httpGet := .ok respConfigured } respConfigured
    [("client_id", .jstr "abc"), ("client_secret", .jstr "xyz")]
    ⟨some (.jstr "blob"), 10⟩ (.jstr "blob")
    rfl (by decide) rfl (by decide) (by decide) (by decide) (by decide) rfl rfl (by decide)

/-- C4 (amended): the region placed in the registration payload is the
uppercased form of the accepted region input; exactly one POST carries it.
No length validation is performed. -/
theorem C4_region_uppercased
    (env : Env) (gr : HttpResponse) (fields : List (String × JVal))
    (f : FileData) (j : JVal)
    (hGet : env.httpGet = .ok gr)
    (hst : gr.status < 400)
    (hjson : gr.jsonBody = some (.jobj fields))
    (hcid : truthy (jlookup fields "client_id") = true)
    (hsec : truthy (jlookup fields "client_secret") = true)
    (hname : env.accountNameInput ≠ "")
    (hreg : pyUpper env.regionInput ≠ "")
    (hcred : env.initialCred = some f)
    (hparse : f.parse = some j)
    (hov : pyLower env.overwriteAnswer ≠ "y") :
    countP Event.isPost (runMain env).2.events = 1 ∧
    Event.httpPostReq (registerUrl (normalizeBaseUrl env.baseUrlInput) env.accountNameInput)
        (JVal.jobj [("region", .jstr (pyUpper env.regionInput)), ("blob_content", j)]) ∈
      (runMain env).2.events := by
  rw [runMain_eq]
  simp only [mainBodyRun, List.nil_append]
  simp only [checkRun, hGet, Nat.not_le.mpr hst, hjson, hcid, hsec, hcred, hname, hreg, hov,
    and_self, if_true, if_false, ite_true, ite_false, eq_self_iff_true, not_true, not_false_iff]
  cases hp : env.httpPost with
  | connError =>
    by_cases hcl : pyLower env.cleanupAnswer = "y" <;>
      by_cases hcu : env.cleanupUnlinkOk = true <;>
        simp [exitOf, finishRun, regRun, hname, hreg, hov, hparse, hp, hcl, hcu,
          countP, Event.isPost]
  | ok pr =>
    by_cases hps : 400 ≤ pr.status ∧ pr.status < 600 <;>
      by_cases hcl : pyLower env.cleanupAnswer = "y" <;>
        by_cases hcu : env.cleanupUnlinkOk = true <;>
          simp [exitOf, finishRun, regRun, hname, hreg, hov, hparse, hp, hps, hcl, hcu,
            countP, Event.isPost]

/-- Witness for the amended C4: input region `us` is sent as `US`. -/
theorem C4_witness :
    countP Event.isPost (runMain { envBase with httpGet := .ok respConfigured }).2.events = 1 ∧
    Event.httpPostReq (registerUrl (normalizeBaseUrl "") "alice")
        (JVal.jobj [("region", .jstr (pyUpper "us")), ("blob_content", .jstr "blob")]) ∈
      (runMain { envBase with httpGet := .ok respConfigured }).2.events :=
  C4_region_uppercased { envBase with httpGet := .ok respConfigured } respConfigured
    [("client_id", .jstr "abc"), ("client_secret", .jstr "xyz")]
    ⟨some (.jstr "blob"), 10⟩ (.jstr "blob")
    rfl (by decide) rfl (by decide) (by decide) (by decide) (by decide) rfl rfl (by decide)

/-- C4 counterexample: the accepted three-letter input `usa` is placed in
the payload as `USA`, a string of length 3, so the region put in the
payload is not always a two-letter string. -/
theorem C4_three_letter_region_accepted :
    ({ envBase with regionInput := "usa" } : Env).regionInput = "usa" ∧
    (runMain { envBase with regionInput := "usa" }).2.events =
      [.promptRead .baseUrl "",
       .httpGetReq "http://localhost:7171/api/credentials/spotify_api_config",
       .promptRead .configureNow "y", .promptRead .clientId "id",
       .promptRead .clientSecret "sec",
       .httpPutReq "http://localhost:7171/api/credentials/spotify_api_config"
         (.jobj [("client_id", .jstr "id"), ("client_secret", .jstr "sec")]),
       .promptRead .accountName "alice", .promptRead .region "usa",
       .promptRead .overwrite "n",
       .httpPostReq "http://localhost:7171/api/credentials/spotify/alice"
         (.jobj [("region", .jstr "USA"), ("blob_content", .jstr "blob")]),
       .promptRead .cleanup "y", .credFileUnlinked] ∧
    ¬("USA".length = 2) :=
  ⟨rfl, rfl, by decide⟩

/-- C3 (amended): whenever the registration POST is attempted (the
credential file present at registration time parses as JSON), the
delete-credentials prompt of the cleanup block runs exactly once, both
when the POST succeeds and when it fails; this holds on all three
reach-POST shapes: existing file reused, file captured fresh, and existing
file overwritten by a fresh capture. -/
theorem C3_cleanup_prompt_once
    (env : Env) (gr : HttpResponse) (fields : List (String × JVal))
    (hGet : env.httpGet = .ok gr)
    (hst : gr.status < 400)
    (hjson : gr.jsonBody = some (.jobj fields))
    (hcid : truthy (jlookup fields "client_id") = true)
    (hsec : truthy (jlookup fields "client_secret") = true)
    (hname : env.accountNameInput ≠ "")
    (hreg : pyUpper env.regionInput ≠ "")
    (hcase :
      (∃ f : FileData, ∃ j : JVal, env.initialCred = some f ∧ f.parse = some j ∧
        pyLower env.overwriteAnswer ≠ "y") ∨
      (∃ j : JVal, ∃ k : Nat, env.initialCred = none ∧
        env.captureOutcome = .written (some j) k) ∨
      (∃ f : FileData, ∃ j : JVal, ∃ k : Nat, env.initialCred = some f ∧
        pyLower env.overwriteAnswer = "y" ∧ env.preUnlinkOk = true ∧
        env.captureOutcome = .written (some j) k)) :
    countP Event.isCleanupPrompt (runMain env).2.events = 1 := by
  rw [runMain_eq]
  simp only [mainBodyRun, List.nil_append]
  rcases hcase with ⟨f, j, hcred, hparse, hov⟩ | ⟨j, k, hcred, hcap⟩ |
    ⟨f, j, k, hcred, hov, hpre, hcap⟩
  · simp only [checkRun, hGet, Nat.not_le.mpr hst, hjson, hcid, hsec, hcred, hname, hreg,
      and_self, if_true, if_false, ite_true, ite_false, eq_self_iff_true, not_true,
      not_false_iff]
    cases hp : env.httpPost with
    | connError =>
      by_cases hcl : pyLower env.cleanupAnswer = "y" <;>
        by_cases hcu : env.cleanupUnlinkOk = true <;>
          simp [exitOf, finishRun, regRun, hname, hreg, hov, hparse, hp, hcl, hcu,
            countP, Event.isCleanupPrompt]
    | ok pr =>
      by_cases hps : 400 ≤ pr.status ∧ pr.status < 600 <;>
        by_cases hcl : pyLower env.cleanupAnswer = "y" <;>
          by_cases hcu : env.cleanupUnlinkOk = true <;>
            simp [exitOf, finishRun, regRun, hname, hreg, hov, hparse, hp, hps, hcl, hcu,
              countP, Event.isCleanupPrompt]
  · simp only [checkRun, hGet, Nat.not_le.mpr hst, hjson, hcid, hsec, hcred, hname, hreg,
      and_self, if_true, if_false, ite_true, ite_false, eq_self_iff_true, not_true,
      not_false_iff]
    cases hp : env.httpPost with
    | connError =>
      by_cases hcl : pyLower env.cleanupAnswer = "y" <;>
        by_cases hcu : env.cleanupUnlinkOk = true <;>
          simp [exitOf, captureRun, captureCore, finishRun, regRun, hname, hreg, hcap, hp,
            hcl, hcu, countP, Event.isCleanupPrompt]
    | ok pr =>
      by_cases hps : 400 ≤ pr.status ∧ pr.status < 600 <;>
        by_cases hcl : pyLower env.cleanupAnswer = "y" <;>
          by_cases hcu : env.cleanupUnlinkOk = true <;>
            simp [exitOf, captureRun, captureCore, finishRun, regRun, hname, hreg, hcap, hp,
              hps, hcl, hcu, countP, Event.isCleanupPrompt]
  · simp only [checkRun, hGet, Nat.not_le.mpr hst, hjson, hcid, hsec, hcred, hname, hreg,
      and_self, if_true, if_false, ite_true, ite_false, eq_self_iff_true, not_true,
      not_false_iff]
    cases hp : env.httpPost with
    | connError =>
      by_cases hcl : pyLower env.cleanupAnswer = "y" <;>
        by_cases hcu : env.cleanupUnlinkOk = true <;>
          simp [exitOf, captureRun, captureCore, finishRun, regRun, hname, hreg, hov, hpre,
            hcap, hp, hcl, hcu, countP, Event.isCleanupPrompt]
    | ok pr =>
      by_cases hps : 400 ≤ pr.status ∧ pr.status < 600 <;>
        by_cases hcl : pyLower env.cleanupAnswer = "y" <;>
          by_cases hcu : env.cleanupUnlinkOk = true <;>
            simp [exitOf, captureRun, captureCore, finishRun, regRun, hname, hreg, hov, hpre,
              hcap, hp, hps, hcl, hcu, countP, Event.isCleanupPrompt]

/-- C3 counterexample: with an existing but malformed `credentials.json`
(parse failure), the registration phase runs and fails at the read step,
exiting with code 1 before the `try/finally` is entered, so the
delete-credentials prompt never executes: zero cleanup prompts, not one. -/
theorem C3_no_prompt_on_malformed_file :
    ({ envBase with initialCred := some ⟨none, 5⟩ } : Env).initialCred = some ⟨none, 5⟩ ∧
    (runMain { envBase with initialCred := some ⟨none, 5⟩ }).1 = 1 ∧
    countP Event.isCleanupPrompt
      (runMain { envBase with initialCred := some ⟨none, 5⟩ }).2.events = 0 :=
  ⟨rfl, rfl, rfl⟩

/-- Witness for the amended C3 on a run whose POST fails with status 500:
the cleanup prompt still runs exactly once. -/
theorem C3_witness :
    countP Event.isCleanupPrompt
      (runMain
        { envBase with
            httpGet := .ok respConfigured
            httpPost := .ok ⟨500, none, "boom"⟩ }).2.events = 1 :=
  C3_cleanup_prompt_once
    { envBase with
        httpGet := .ok respConfigured
        httpPost := .ok ⟨500, none, "boom"⟩ }
    respConfigured [("client_id", .jstr "abc"), ("client_secret", .jstr "xyz")]
    rfl (by decide) rfl (by decide) (by decide) (by decide) (by decide)
    (Or.inl ⟨⟨some (.jstr "blob"), 10⟩, .jstr "blob", rfl, rfl, by decide⟩)

/-- C8 (amended): an OS error while deleting the stale credential file
before capture is fatal (exit code 1), but an OS error during the
end-of-run cleanup deletion is caught and logged and the run still exits
with the code of the registration outcome (0 on success). -/
theorem C8_unlink_error_split
    (env : Env) (gr : HttpResponse) (fields : List (String × JVal)) (f : FileData)
    (hGet : env.httpGet = .ok gr)
    (hst : gr.status < 400)
    (hjson : gr.jsonBody = some (.jobj fields))
    (hcid : truthy (jlookup fields "client_id") = true)
    (hsec : truthy (jlookup fields "client_secret") = true)
    (hname : env.accountNameInput ≠ "")
    (hreg : pyUpper env.regionInput ≠ "")
    (hcred : env.initialCred = some f) :
    (env.preUnlinkOk = false → pyLower env.overwriteAnswer = "y" → (runMain env).1 = 1) ∧
    (∀ pr : HttpResponse, ∀ j : JVal, env.httpPost = .ok pr → pr.status < 400 →
      f.parse = some j → pyLower env.overwriteAnswer ≠ "y" →
      pyLower env.cleanupAnswer = "y" → env.cleanupUnlinkOk = false →
      (runMain env).1 = 0) := by
  constructor
  · intro hpre hov
    rw [runMain_eq]
    simp only [mainBodyRun, List.nil_append]
    simp [exitOf, checkRun, captureRun, hGet, Nat.not_le.mpr hst, hjson, hcid, hsec, hcred,
      hname, hreg, hov, hpre]
  · intro pr j hp hps hparse hov hcl hcu
    rw [runMain_eq]
    simp only [mainBodyRun, List.nil_append]
    simp [exitOf, checkRun, finishRun, regRun, hGet, Nat.not_le.mpr hst, hjson, hcid, hsec,
      hcred, hname, hreg, hov, hparse, hp, Nat.not_le.mpr hps, hcl, hcu]

/-- C8 counterexample: the cleanup deletion fails with an OS error (the
user answered `y`, the file remains on disk), yet the process exits 0, not
with a non-zero code. -/
theorem C8_cleanup_error_not_fatal :
    ({ envBase with cleanupUnlinkOk := false } : Env).cleanupUnlinkOk = false ∧
    pyLower ({ envBase with cleanupUnlinkOk := false } : Env).cleanupAnswer = "y" ∧
    (runMain { envBase with cleanupUnlinkOk := false }).1 = 0 ∧
    (runMain { envBase with cleanupUnlinkOk := false }).2.credFile =
      some ⟨some (.jstr "blob"), 10⟩ :=
  ⟨rfl, by decide, rfl, rfl⟩

/-- Witness for the amended C8, second part: cleanup deletion failure with
a successful POST still exits 0. -/
theorem C8_witness :
    (runMain
      { envBase with httpGet := .ok respConfigured, cleanupUnlinkOk := false }).1 = 0 :=
  (C8_unlink_error_split
    { envBase with httpGet := .ok respConfigured, cleanupUnlinkOk := false }
    respConfigured [("client_id", .jstr "abc"), ("client_secret", .jstr "xyz")]
    ⟨some (.jstr "blob"), 10⟩
    rfl (by decide) rfl (by decide) (by decide) (by decide) (by decide) rfl).2
    ⟨200, none, "registered"⟩ (.jstr "blob") rfl (by decide) rfl (by decide) (by decide) rfl

/-- C10: the registration URL is built by direct interpolation of the raw
account name into the path, with no escaping or validation: the issued
POST targets exactly `{base}/api/credentials/spotify/` followed by the
account name as typed, for every non-empty account name, including ones
holding URL-significant characters. -/
theorem C10_raw_name_interpolation
    (env : Env) (gr : HttpResponse) (fields : List (String × JVal))
    (f : FileData) (j : JVal)
    (hGet : env.httpGet = .ok gr)
    (hst : gr.status < 400)
    (hjson : gr.jsonBody = some (.jobj fields))
    (hcid : truthy (jlookup fields "client_id") = true)
    (hsec : truthy (jlookup fields "client_secret") = true)
    (hname : env.accountNameInput ≠ "")
    (hreg : pyUpper env.regionInput ≠ "")
    (hcred : env.initialCred = some f)
    (hparse : f.parse = some j)
    (hov : pyLower env.overwriteAnswer ≠ "y") :
    Event.httpPostReq
        (rstripSlash (normalizeBaseUrl env.baseUrlInput) ++ "/api/credentials/spotify/" ++
          env.accountNameInput)
        (JVal.jobj [("region", .jstr (pyUpper env.regionInput)), ("blob_content", j)]) ∈
      (runMain env).2.events := by
  rw [runMain_eq]
  simp only [mainBodyRun, List.nil_append]
  simp only [checkRun, hGet, Nat.not_le.mpr hst, hjson, hcid, hsec, hcred, hname, hreg, hov,
    and_self, if_true, if_false, ite_true, ite_false, eq_self_iff_true, not_true, not_false_iff]
  cases hp : env.httpPost with
  | connError =>
    by_cases hcl : pyLower env.cleanupAnswer = "y" <;>
      by_cases hcu : env.cleanupUnlinkOk = true <;>
        simp [exitOf, finishRun, regRun, registerUrl, hname, hreg, hov, hparse, hp, hcl, hcu]
  | ok pr =>
    by_cases hps : 400 ≤ pr.status ∧ pr.status < 600 <;>
      by_cases hcl : pyLower env.cleanupAnswer = "y" <;>
        by_cases hcu : env.cleanupUnlinkOk = true <;>
          simp [exitOf, finishRun, regRun, registerUrl, hname, hreg, hov, hparse, hp, hps,
            hcl, hcu]

/-- Witness for C10: an account name holding URL-significant characters is
interpolated verbatim, changing the request path. -/
theorem C10_witness :
    (rstripSlash (normalizeBaseUrl "") ++ "/api/credentials/spotify/" ++ "a/b?x#y" =
      "http://localhost:7171/api/credentials/spotify/a/b?x#y") ∧
    Event.httpPostReq
        (rstripSlash (normalizeBaseUrl "") ++ "/api/credentials/spotify/" ++ "a/b?x#y")
        (JVal.jobj [("region", .jstr (pyUpper "us")), ("blob_content", .jstr "blob")]) ∈
      (runMain
        { envBase with
            httpGet := .ok respConfigured
            accountNameInput := "a/b?x#y" }).2.events :=
  ⟨by decide, C10_raw_name_interpolation
    { envBase with
        httpGet := .ok respConfigured
        accountNameInput := "a/b?x#y" }
    respConfigured [("client_id", .jstr "abc"), ("client_secret", .jstr "xyz")]
    ⟨some (.jstr "blob"), 10⟩ (.jstr "blob")
    rfl (by decide) rfl (by decide) (by decide) (by decide) (by decide) rfl rfl (by decide)⟩
